import Mathlib

/-!
Verification of `lambda_function.py` (Route53 CloudWatch failover handler).

The Python source is shallowly embedded as executable Lean functions:

* Python values flowing through the SNS event are modelled by `PyVal`
  (dicts as association lists, JSON-style scalars); uncaught Python
  exceptions (`TypeError`, `AttributeError`, ...) are modelled with
  `Except PyErr`.  The `try`/`except` block of `validate_sns_message`,
  which catches only `json.JSONDecodeError`, `KeyError` and `IndexError`,
  is modelled by `vtry`.
* `json.loads` (the standard library) is an external collaborator and is
  passed in as a function `loads : String → Option PyVal`
  (`none` modelling `json.JSONDecodeError`).
* The Route53 client is an external collaborator: the (deterministic)
  response to `list_resource_record_sets` is passed in as
  `Except Unit (List (List RecordSetEntry))` (the pages yielded by the
  paginator, `Except.error` modelling a raised client exception), and
  `change_resource_record_sets` as a success predicate
  `changeOk : ResourceRecordSetPayload → Bool` on the submitted record
  set.  `lambda_handler` additionally returns the ordered list of record
  sets submitted through `change_resource_record_sets` (its trace of
  mutation calls); a submitted change takes effect at the provider
  exactly when `changeOk` holds for it.
* `os.environ` is passed in as the association list
  `env : List (String × String)`.
-/

/-- Model of a Python value as found in a Lambda/SNS event (the JSON
data model plus `None`). -/
inductive PyVal where
  | none
  | bool (b : Bool)
  | int (n : Int)
  | str (s : String)
  | list (elems : List PyVal)
  | dict (entries : List (String × PyVal))

/-- Python exceptions that can escape or be caught in
`validate_sns_message`. -/
inductive PyErr where
  | typeError
  | attributeError
  | keyError
  | indexError
  | jsonDecodeError
  deriving DecidableEq

/-- Python truthiness (`if not value`). -/
def PyVal.truthy : PyVal → Bool
  | .none => false
  | .bool b => b
  | .int n => n != 0
  | .str s => !s.isEmpty
  | .list l => !l.isEmpty
  | .dict d => !d.isEmpty

/-- Python `len(x)`: defined for sized containers, `TypeError` otherwise. -/
def pyLen : PyVal → Except PyErr Nat
  | .str s => .ok s.length
  | .list l => .ok l.length
  | .dict d => .ok d.length
  | _ => .error .typeError

/-- Python `x[0]` (source line 225 `event["Records"][0]`): first element
of a list (or one-character string of a string); `KeyError` for a dict
keyed by strings, `TypeError` for non-subscriptable values. -/
def pyIndexZero : PyVal → Except PyErr PyVal
  | .list [] => .error .indexError
  | .list (v :: _) => .ok v
  | .str s => if s.isEmpty then .error .indexError else .ok (.str (String.singleton s.front))
  | .dict _ => .error .keyError
  | _ => .error .typeError

/-- Python `k in x` for a string `k`: key membership for dicts,
substring test for strings, elementwise `==` for lists, `TypeError`
otherwise. -/
def pyContains : PyVal → String → Except PyErr Bool
  | .dict d, k => .ok (d.any (fun kv => kv.1 == k))
  | .str s, k => .ok (k.isEmpty || (s.splitOn k).length != 1)
  | .list l, k => .ok (l.any (fun v => match v with | .str s => s == k | _ => false))
  | _, _ => .error .typeError

/-- Python `x[k]` for a string key `k`: dict lookup (`KeyError` when
absent), `TypeError` for every other value. -/
def pySubscript : PyVal → String → Except PyErr PyVal
  | .dict d, k =>
    match d.lookup k with
    | some v => .ok v
    | Option.none => .error .keyError
  | _, _ => .error .typeError

/-- Python `x.get(k)`: defined for dicts (returning `None` when the key
is absent), `AttributeError` for every other value. -/
def pyGetAttr : PyVal → String → Except PyErr PyVal
  | .dict d, k => .ok ((d.lookup k).getD .none)
  | _, _ => .error .attributeError

/-- Python `json.loads(x)`: requires a string argument (`TypeError`
otherwise); the external parser `loads` yields `none` on a
`json.JSONDecodeError`. -/
def pyLoads (loads : String → Option PyVal) : PyVal → Except PyErr PyVal
  | .str s =>
    match loads s with
    | some v => .ok v
    | Option.none => .error .jsonDecodeError
  | _ => .error .typeError

/-- The `try`/`except` of `validate_sns_message` (source lines 214-255):
`json.JSONDecodeError`, `KeyError` and `IndexError` are caught and turn
the whole call into `None`; other exceptions propagate. -/
def vtry {α : Type} (r : Except PyErr α) (k : α → Except PyErr (Option String)) :
    Except PyErr (Option String) :=
  match r with
  | .ok v => k v
  | .error .keyError => .ok Option.none
  | .error .indexError => .ok Option.none
  | .error .jsonDecodeError => .ok Option.none
  | .error e => .error e

/-- Source lines 226-248 of `validate_sns_message`: processing of the
first record `sns_record = event["Records"][0]`. -/
def stateFromRecord (loads : String → Option PyVal) (sns_record : PyVal) :
    Except PyErr (Option String) :=
  vtry (pyContains sns_record "Sns") (fun hasSns =>
    if !hasSns then .ok Option.none
    else vtry (pySubscript sns_record "Sns") (fun sns =>
      vtry (pyGetAttr sns "Message") (fun sns_message_str =>
        if !sns_message_str.truthy then .ok Option.none
        else vtry (pyLoads loads sns_message_str) (fun sns_message =>
          vtry (pyGetAttr sns_message "NewStateValue") (fun new_state =>
            if !new_state.truthy then .ok Option.none
            else
              match new_state with
              | .str s =>
                if s == "ALARM" || s == "OK" || s == "INSUFFICIENT_DATA" then .ok (some s)
                else .ok Option.none
              | _ => .ok Option.none)))))

/-- Model of `validate_sns_message(event)` (source lines 204-255).  The event is
the handler's dict argument. -/
def validate_sns_message (loads : String → Option PyVal) (event : List (String × PyVal)) :
    Except PyErr (Option String) :=
  match event.lookup "Records" with
  | Option.none => .ok Option.none
  | some recs =>
    if !recs.truthy then .ok Option.none
    else vtry (pyLen recs) (fun n =>
      if n == 0 then .ok Option.none
      else vtry (pyIndexZero recs) (fun sns_record => stateFromRecord loads sns_record))

/-- The required environment variables, in source order (lines 39-45). -/
def required_vars : List String :=
  ["HOSTED_ZONE_ID", "RECORD_SET_NAME", "PRIMARY_IDENTIFIER", "SECONDARY_IDENTIFIER", "RECORD_TYPE"]

/-- Test `not value` for `value = os.environ.get(var)`: the variable is
treated as missing when unset or bound to the empty string. -/
def envMissing (env : List (String × String)) (v : String) : Bool :=
  match env.lookup v with
  | Option.none => true
  | some s => s.isEmpty

/-- The `missing_vars` list built by the loop at source lines 50-55. -/
def collectMissing (env : List (String × String)) : List String → List String
  | [] => []
  | v :: rest =>
    if envMissing env v then v :: collectMissing env rest else collectMissing env rest

/-- Value of an environment variable that passed the missing check. -/
def envVal (env : List (String × String)) (v : String) : String :=
  (env.lookup v).getD ""

/-- Python `s.endswith(".")`: the last character of `s` is a dot. -/
def lastCharIs (c : Char) (s : String) : Bool :=
  match s.data.getLast? with
  | some d => d == c
  | Option.none => false

/-- Source lines 63-67: append a trailing dot to `RECORD_SET_NAME`
unless already present. -/
def withTrailingDot (s : String) : String :=
  if lastCharIs '.' s then s else s ++ "."

/-- The validated configuration returned by
`validate_environment_variables`. -/
structure EnvConfig where
  hosted_zone_id : String
  record_set_name : String
  primary_identifier : String
  secondary_identifier : String
  record_type : String
  deriving DecidableEq

/-- Model of `validate_environment_variables()` (source lines 29-69); `Except.error`
models the raised `ValueError` (with its message). -/
def validate_environment_variables (env : List (String × String)) : Except String EnvConfig :=
  match collectMissing env required_vars with
  | [] =>
    .ok { hosted_zone_id := envVal env "HOSTED_ZONE_ID",
          record_set_name := withTrailingDot (envVal env "RECORD_SET_NAME"),
          primary_identifier := envVal env "PRIMARY_IDENTIFIER",
          secondary_identifier := envVal env "SECONDARY_IDENTIFIER",
          record_type := envVal env "RECORD_TYPE" }
  | missing =>
    .error ("Missing required environment variables: " ++ String.intercalate ", " missing)

/-- The `RecordInfo` dataclass (source lines 16-26). -/
structure RecordInfo where
  is_alias : Bool
  alias_dns_name : Option String := Option.none
  alias_hosted_zone_id : Option String := Option.none
  resource_records : Option (List String) := Option.none
  ttl : Option Nat := Option.none
  deriving DecidableEq

/-- The `AliasTarget` object of a record set listed by Route53. -/
structure AliasTargetEntry where
  dnsName : String
  hostedZoneId : String
  deriving DecidableEq

/-- A resource record set as listed by `list_resource_record_sets`
(only the fields the source reads). -/
structure RecordSetEntry where
  name : String
  type : String
  setIdentifier : Option String := Option.none
  ttl : Option Nat := Option.none
  aliasTarget : Option AliasTargetEntry := Option.none
  resourceRecords : Option (List String) := Option.none
  deriving DecidableEq

/-- Python string `<` on code points (used by the source's
`record_set["Name"] > record_set_name` comparison). -/
def charsLt : List Char → List Char → Bool
  | [], [] => false
  | [], _ :: _ => true
  | _ :: _, [] => false
  | a :: as, b :: bs =>
    if a.toNat < b.toNat then true
    else if b.toNat < a.toNat then false
    else charsLt as bs

/-- Comparison `a < b` for Python strings. -/
def pyStrLt (a b : String) : Bool := charsLt a.data b.data

/-- The record-matching condition of source lines 105-109. -/
def matchesB (record_set_name identifier record_type : String) (rs : RecordSetEntry) : Bool :=
  rs.name == record_set_name && rs.setIdentifier == some identifier && rs.type == record_type

/-- Conversion of a matching record set into a `RecordInfo` (source
lines 110-126): `AliasTarget` first, else `ResourceRecords` (with TTL
defaulting to 300), else no result (the loop falls through). -/
def recordInfoOf (rs : RecordSetEntry) : Option RecordInfo :=
  match rs.aliasTarget with
  | some tgt =>
    some { is_alias := true, alias_dns_name := some tgt.dnsName,
           alias_hosted_zone_id := some tgt.hostedZoneId }
  | Option.none =>
    match rs.resourceRecords with
    | some vals =>
      some { is_alias := false, resource_records := some vals, ttl := some (rs.ttl.getD 300) }
    | Option.none => Option.none

/-- The inner loop of `get_record_info` over one page (source lines
100-126).  A record whose name compares greater than the target breaks
out of the page; a matching record is converted via `recordInfoOf`; a
matching record carrying neither variant falls through to the next
record. -/
def scanPage (record_set_name identifier record_type : String) :
    List RecordSetEntry → Option RecordInfo
  | [] => Option.none
  | rs :: rest =>
    if pyStrLt record_set_name rs.name then Option.none
    else if matchesB record_set_name identifier record_type rs then
      match recordInfoOf rs with
      | some info => some info
      | Option.none => scanPage record_set_name identifier record_type rest
    else scanPage record_set_name identifier record_type rest

/-- The outer loop of `get_record_info` over the paginator's pages
(source line 99): the `break` only leaves the current page. -/
def searchPages (record_set_name identifier record_type : String) :
    List (List RecordSetEntry) → Option RecordInfo
  | [] => Option.none
  | page :: rest =>
    match scanPage record_set_name identifier record_type page with
    | some info => some info
    | Option.none => searchPages record_set_name identifier record_type rest

/-- Model of `get_record_info(...)` (source lines 72-136).  `listResp` is the
provider's response to `list_resource_record_sets`; a raised client
exception (`Except.error`) is caught and yields `None`, as does an
exhausted search. -/
def get_record_info (listResp : Except Unit (List (List RecordSetEntry)))
    (record_set_name identifier record_type : String) : Option RecordInfo :=
  match listResp with
  | .error _ => Option.none
  | .ok pages => searchPages record_set_name identifier record_type pages

/-- The `AliasTarget` dict built at source lines 174-178 (the
`RecordInfo` fields are `Optional`, so `None` can flow in). -/
structure AliasTargetPayload where
  dnsName : Option String
  hostedZoneId : Option String
  evaluateTargetHealth : Bool
  deriving DecidableEq

/-- The `resource_record_set` dict submitted through
`change_resource_record_sets` (source lines 165-183). -/
structure ResourceRecordSetPayload where
  name : String
  type : String
  weight : Nat
  setIdentifier : String
  aliasTarget : Option AliasTargetPayload := Option.none
  ttl : Option Nat := Option.none
  resourceRecords : Option (List String) := Option.none
  deriving DecidableEq

/-- Python `record_info.ttl or 300` (source line 180): `None` and `0`
are falsy and replaced by 300. -/
def pyOrDefaultTTL : Option Nat → Nat
  | Option.none => 300
  | some k => if k == 0 then 300 else k

/-- Construction of the submitted record set (source lines 163-183). -/
def buildResourceRecordSet (record_set_name record_type identifier : String) (weight : Nat)
    (record_info : RecordInfo) : ResourceRecordSetPayload :=
  if record_info.is_alias then
    { name := record_set_name, type := record_type, weight := weight,
      setIdentifier := identifier,
      aliasTarget := some { dnsName := record_info.alias_dns_name,
                            hostedZoneId := record_info.alias_hosted_zone_id,
                            evaluateTargetHealth := false } }
  else
    { name := record_set_name, type := record_type, weight := weight,
      setIdentifier := identifier,
      ttl := some (pyOrDefaultTTL record_info.ttl),
      resourceRecords := some (record_info.resource_records.getD []) }

/-- Model of `set_dns_record_weight(...)` (source lines 139-201): builds the
record set, submits it (second component: the trace of submitted record
sets) and reports whether the API call succeeded (`changeOk`). -/
def set_dns_record_weight (changeOk : ResourceRecordSetPayload → Bool)
    (hosted_zone_id record_set_name record_type identifier : String) (weight : Nat)
    (record_info : RecordInfo) : Bool × List ResourceRecordSetPayload :=
  let rrs := buildResourceRecordSet record_set_name record_type identifier weight record_info
  (changeOk rrs, [rrs])

/-- The `success = set_dns_record_weight(...) and set_dns_record_weight(...)`
pattern of source lines 318-352: Python's `and` short-circuits, so the
secondary update is only submitted when the primary one succeeded. -/
def updateWeights (changeOk : ResourceRecordSetPayload → Bool)
    (hosted_zone_id record_set_name record_type primary_identifier secondary_identifier : String)
    (wpri wsec : Nat) (pri sec : RecordInfo) : Bool × List ResourceRecordSetPayload :=
  let r1 := set_dns_record_weight changeOk hosted_zone_id record_set_name record_type
      primary_identifier wpri pri
  if r1.1 then
    let r2 := set_dns_record_weight changeOk hosted_zone_id record_set_name record_type
        secondary_identifier wsec sec
    (r2.1, r1.2 ++ r2.2)
  else
    (false, r1.2)

/-- The handler's result dict `{"statusCode": ..., "body": ...}`. -/
structure HandlerResult where
  statusCode : Nat
  body : String
  deriving DecidableEq

/-- Rendering by `json.dumps` of a one-field object. -/
def jsonObj1 (k v : String) : String :=
  "\x7b\"" ++ k ++ "\": \"" ++ v ++ "\"\x7d"

/-- Rendering by `json.dumps` of a two-field object. -/
def jsonObj2 (k1 v1 k2 v2 : String) : String :=
  "\x7b\"" ++ k1 ++ "\": \"" ++ v1 ++ "\", \"" ++ k2 ++ "\": \"" ++ v2 ++ "\"\x7d"

/-- The lookup-failure message built at source lines 307-312. -/
def lookupErrorMsg (priMissing secMissing : Bool) (p s : String) : String :=
  "Failed to retrieve record information for "
  ++ (if priMissing then "primary identifier \x27" ++ p ++ "\x27" else "")
  ++ (if secMissing then
        (if priMissing then " and " else "") ++ "secondary identifier \x27" ++ s ++ "\x27"
      else "")

/-- Source lines 360-373: the final success/failure response. -/
def finishUpdate (new_state : String) (u : Bool × List ResourceRecordSetPayload) :
    Except PyErr HandlerResult × List ResourceRecordSetPayload :=
  if u.1 then
    (.ok { statusCode := 200,
           body := jsonObj1 "message" ("DNS weights updated successfully for state: " ++ new_state) },
     u.2)
  else
    (.ok { statusCode := 500, body := jsonObj1 "error" "Failed to update DNS weights" }, u.2)

/-- Model of `lambda_handler(event, context)` (source lines 258-373).  Returns the
handler's result (or a propagated uncaught exception) together with the
ordered list of record sets submitted through
`change_resource_record_sets`. -/
def lambda_handler (loads : String → Option PyVal) (env : List (String × String))
    (listResp : Except Unit (List (List RecordSetEntry)))
    (changeOk : ResourceRecordSetPayload → Bool)
    (event : List (String × PyVal)) :
    Except PyErr HandlerResult × List ResourceRecordSetPayload :=
  match validate_environment_variables env with
  | .error msg =>
    (.ok { statusCode := 500, body := jsonObj2 "error" "Configuration error" "message" msg }, [])
  | .ok cfg =>
    match validate_sns_message loads event with
    | .error e => (.error e, [])
    | .ok Option.none =>
      (.ok { statusCode := 400, body := jsonObj1 "error" "Invalid event structure" }, [])
    | .ok (some new_state) =>
      match get_record_info listResp cfg.record_set_name cfg.primary_identifier cfg.record_type,
            get_record_info listResp cfg.record_set_name cfg.secondary_identifier cfg.record_type with
      | some pri, some sec =>
        if new_state == "ALARM" then
          finishUpdate new_state (updateWeights changeOk cfg.hosted_zone_id cfg.record_set_name
            cfg.record_type cfg.primary_identifier cfg.secondary_identifier 0 1 pri sec)
        else if new_state == "OK" then
          finishUpdate new_state (updateWeights changeOk cfg.hosted_zone_id cfg.record_set_name
            cfg.record_type cfg.primary_identifier cfg.secondary_identifier 1 0 pri sec)
        else
          (.ok { statusCode := 200,
                 body := jsonObj1 "message" ("No action taken for state: " ++ new_state) }, [])
      | pri, sec =>
        (.ok { statusCode := 500,
               body := jsonObj1 "error"
                 (lookupErrorMsg pri.isNone sec.isNone cfg.primary_identifier cfg.secondary_identifier) },
         [])

/-! Concrete fixtures used by witnesses and counterexamples. -/

/-- A CloudWatch alarm message body with `NewStateValue = ALARM`. -/
def msgALARM : String := "\x7b\"NewStateValue\": \"ALARM\"\x7d"

/-- A CloudWatch alarm message body with `NewStateValue = OK`. -/
def msgOK : String := "\x7b\"NewStateValue\": \"OK\"\x7d"

/-- A CloudWatch alarm message body with `NewStateValue = INSUFFICIENT_DATA`. -/
def msgINS : String := "\x7b\"NewStateValue\": \"INSUFFICIENT_DATA\"\x7d"

/-- A concrete `json.loads`, matching Python's parser on the strings the
fixtures use (note that `"5"` and `"[]"` are valid JSON documents that
decode to a non-object). -/
def loadsW : String → Option PyVal := fun s =>
  if s == msgALARM then some (.dict [("NewStateValue", .str "ALARM")])
  else if s == msgOK then some (.dict [("NewStateValue", .str "OK")])
  else if s == msgINS then some (.dict [("NewStateValue", .str "INSUFFICIENT_DATA")])
  else if s == "5" then some (.int 5)
  else if s == "[]" then some (.list [])
  else Option.none

/-- A complete environment. -/
def envW : List (String × String) :=
  [("HOSTED_ZONE_ID", "Z1"), ("RECORD_SET_NAME", "example.com."),
   ("PRIMARY_IDENTIFIER", "primary"), ("SECONDARY_IDENTIFIER", "secondary"),
   ("RECORD_TYPE", "A")]

/-- The configuration produced from `envW`. -/
def cfgW : EnvConfig :=
  { hosted_zone_id := "Z1", record_set_name := "example.com.",
    primary_identifier := "primary", secondary_identifier := "secondary",
    record_type := "A" }

/-- A complete environment whose `RECORD_TYPE` is present but empty. -/
def envEmptyType : List (String × String) :=
  [("HOSTED_ZONE_ID", "Z1"), ("RECORD_SET_NAME", "example.com."),
   ("PRIMARY_IDENTIFIER", "primary"), ("SECONDARY_IDENTIFIER", "secondary"),
   ("RECORD_TYPE", "")]

/-- A well-formed SNS event whose embedded message is `m`. -/
def eventFor (m : String) : List (String × PyVal) :=
  [("Records", .list [.dict [("Sns", .dict [("Message", .str m)])]])]

/-- An event like `eventFor msgALARM` but with a second record and an
extra top-level key. -/
def eventExtra : List (String × PyVal) :=
  [("Records", .list [.dict [("Sns", .dict [("Message", .str msgALARM)])], .str "junk"]),
   ("extra", .int 7)]

/-- The primary record as listed by the provider (alias variant). -/
def rsPri : RecordSetEntry :=
  { name := "example.com.", type := "A", setIdentifier := some "primary",
    aliasTarget := some { dnsName := "pri.example.com.", hostedZoneId := "Z111" } }

/-- The secondary record as listed by the provider (standard variant). -/
def rsSec : RecordSetEntry :=
  { name := "example.com.", type := "A", setIdentifier := some "secondary",
    ttl := some 60, resourceRecords := some ["5.6.7.8"] }

/-- A record set whose name compares greater than `example.com.`. -/
def rsBig : RecordSetEntry := { name := "zzz.com.", type := "A" }

/-- A primary standard record listed with `TTL = 0` (a value Route53
permits). -/
def rsTTL0 : RecordSetEntry :=
  { name := "example.com.", type := "A", setIdentifier := some "primary",
    ttl := some 0, resourceRecords := some ["1.2.3.4"] }

/-- The listing response holding both records. -/
def listRespW : Except Unit (List (List RecordSetEntry)) := .ok [[rsPri, rsSec]]

/-- The `RecordInfo` read for the primary record of `listRespW`. -/
def priInfoW : RecordInfo :=
  { is_alias := true, alias_dns_name := some "pri.example.com.",
    alias_hosted_zone_id := some "Z111" }

/-- The `RecordInfo` read for the secondary record of `listRespW`. -/
def secInfoW : RecordInfo :=
  { is_alias := false, resource_records := some ["5.6.7.8"], ttl := some 60 }

/-- The `RecordInfo` read for `rsTTL0`. -/
def infoTTL0 : RecordInfo :=
  { is_alias := false, resource_records := some ["1.2.3.4"], ttl := some 0 }

/-- A provider accepting every change. -/
def allOk : ResourceRecordSetPayload → Bool := fun _ => true

/-- A provider rejecting changes to the record identified by `primary`. -/
def denyPrimary : ResourceRecordSetPayload → Bool := fun p => !(p.setIdentifier == "primary")

/-- A provider rejecting changes to the record identified by `secondary`. -/
def denySecondary : ResourceRecordSetPayload → Bool := fun p => !(p.setIdentifier == "secondary")

/-! Supporting lemmas. -/

theorem collectMissing_eq_nil_iff (env : List (String × String)) (vs : List String) :
    collectMissing env vs = [] ↔ ∀ v ∈ vs, envMissing env v = false := by
  induction vs with
  | nil => simp [collectMissing]
  | cons v rest ih =>
    cases h : envMissing env v
    · simp [collectMissing, h, ih]
    · simp [collectMissing, h]

theorem envMissing_iff (env : List (String × String)) (v : String) :
    envMissing env v = true ↔ (env.lookup v = Option.none ∨ env.lookup v = some "") := by
  unfold envMissing
  cases h : env.lookup v with
  | none => simp
  | some s => simp [String.isEmpty_iff]

/-- C4 counterexample: with every required variable present but
`RECORD_TYPE` bound to the empty string, `validate_environment_variables`
still raises `ValueError`, although no variable is absent. -/
theorem C4_env_validation_counterexample :
    validate_environment_variables envEmptyType =
      .error "Missing required environment variables: RECORD_TYPE"
  ∧ required_vars.all (fun v => (envEmptyType.lookup v).isSome) = true :=
  ⟨rfl, rfl⟩

/-- C4 (amended): `validate_environment_variables` raises `ValueError`
iff at least one of the five required settings is absent *or bound to
the empty string* (the source tests Python falsiness, not mere
presence); when it returns normally it returns the five looked-up
values, with `RECORD_SET_NAME` getting a trailing dot appended exactly
when not already present. -/
theorem C4_env_validation_amended (env : List (String × String)) :
    ((∃ msg, validate_environment_variables env = .error msg) ↔
      ∃ v ∈ required_vars, env.lookup v = Option.none ∨ env.lookup v = some "")
  ∧ (∀ cfg, validate_environment_variables env = .ok cfg →
      cfg.hosted_zone_id = envVal env "HOSTED_ZONE_ID"
      ∧ cfg.record_set_name =
          (if lastCharIs '.' (envVal env "RECORD_SET_NAME") then envVal env "RECORD_SET_NAME"
           else envVal env "RECORD_SET_NAME" ++ ".")
      ∧ cfg.primary_identifier = envVal env "PRIMARY_IDENTIFIER"
      ∧ cfg.secondary_identifier = envVal env "SECONDARY_IDENTIFIER"
      ∧ cfg.record_type = envVal env "RECORD_TYPE") := by
  constructor
  · constructor
    · rintro ⟨msg, hmsg⟩
      cases h : collectMissing env required_vars with
      | nil => simp [validate_environment_variables, h] at hmsg
      | cons a l =>
        by_contra hno
        push_neg at hno
        have hall : ∀ v ∈ required_vars, envMissing env v = false := by
          intro v hv
          have := hno v hv
          cases hl : env.lookup v with
          | none => exact absurd hl this.1
          | some s =>
            have hs : s ≠ "" := by
              intro hs0
              exact this.2 (by rw [hl, hs0])
            have hie : s.isEmpty = false := by
              cases hie0 : s.isEmpty
              · rfl
              · exact absurd ((String.isEmpty_iff s).mp hie0) hs
            simp [envMissing, hl, hie]
        rw [(collectMissing_eq_nil_iff env required_vars).mpr hall] at h
        exact List.noConfusion h
    · rintro ⟨v, hv, hcase⟩
      have hmiss : envMissing env v = true := (envMissing_iff env v).mpr hcase
      cases h : collectMissing env required_vars with
      | nil =>
        have := (collectMissing_eq_nil_iff env required_vars).mp h v hv
        rw [hmiss] at this
        exact Bool.noConfusion this
      | cons a l =>
        refine ⟨"Missing required environment variables: " ++ String.intercalate ", " (a :: l), ?_⟩
        simp [validate_environment_variables, h]
  · intro cfg hcfg
    cases h : collectMissing env required_vars with
    | nil =>
      simp only [validate_environment_variables, h, Except.ok.injEq] at hcfg
      subst hcfg
      exact ⟨rfl, rfl, rfl, rfl, rfl⟩
    | cons a l => simp [validate_environment_variables, h] at hcfg

/-- C4 witness: the amended theorem applied to the complete environment
`envW`, whose validation succeeds with configuration `cfgW`. -/
theorem C4_env_validation_witness :
    cfgW.hosted_zone_id = envVal envW "HOSTED_ZONE_ID"
  ∧ cfgW.record_set_name =
      (if lastCharIs '.' (envVal envW "RECORD_SET_NAME") then envVal envW "RECORD_SET_NAME"
       else envVal envW "RECORD_SET_NAME" ++ ".")
  ∧ cfgW.primary_identifier = envVal envW "PRIMARY_IDENTIFIER"
  ∧ cfgW.secondary_identifier = envVal envW "SECONDARY_IDENTIFIER"
  ∧ cfgW.record_type = envVal envW "RECORD_TYPE" :=
  (C4_env_validation_amended envW).2 cfgW (show validate_environment_variables envW = Except.ok cfgW from rfl)

/-- C6: for every `RecordInfo`, the submitted record set carries the
alias field (`AliasTarget`) exactly when `is_alias` holds and the
standard fields (`TTL`, `ResourceRecords`) exactly when it does not:
alias fields XOR standard fields, never both, never neither. -/
theorem C6_alias_xor_standard (record_set_name record_type identifier : String) (weight : Nat)
    (record_info : RecordInfo) :
    ((buildResourceRecordSet record_set_name record_type identifier weight record_info).aliasTarget.isSome
        = record_info.is_alias)
  ∧ ((buildResourceRecordSet record_set_name record_type identifier weight record_info).ttl.isSome
        = !record_info.is_alias)
  ∧ ((buildResourceRecordSet record_set_name record_type identifier weight record_info).resourceRecords.isSome
        = !record_info.is_alias)
  ∧ (((buildResourceRecordSet record_set_name record_type identifier weight record_info).aliasTarget.isSome
      && ((buildResourceRecordSet record_set_name record_type identifier weight record_info).ttl.isSome
          || (buildResourceRecordSet record_set_name record_type identifier weight record_info).resourceRecords.isSome))
        = false)
  ∧ (((buildResourceRecordSet record_set_name record_type identifier weight record_info).aliasTarget.isSome
      || ((buildResourceRecordSet record_set_name record_type identifier weight record_info).ttl.isSome
          && (buildResourceRecordSet record_set_name record_type identifier weight record_info).resourceRecords.isSome))
        = true) := by
  cases h : record_info.is_alias <;> simp [buildResourceRecordSet, h]

/-- C3 (code-bug exhibit): the event
`{"Records": [{"Sns": {"Message": "5"}}]}` has a non-empty,
JSON-decodable message (`json.loads("5") = 5`), yet
`validate_sns_message` neither extracts a state nor returns `None`: the
`sns_message.get("NewStateValue")` call raises an uncaught
`AttributeError` (only `JSONDecodeError`, `KeyError` and `IndexError`
are caught), contradicting the function's documented contract of
returning `None` for invalid input. -/
theorem C3_validate_raises_on_nonobject_json :
    validate_sns_message loadsW (eventFor "5") = .error .attributeError
  ∧ loadsW "5" = some (.int 5) :=
  ⟨rfl, rfl⟩

/-- C7 (code-bug exhibit): under a complete environment, the event
`{"Records": [{"Sns": {"Message": "[]"}}]}` (whose message decodes to
the JSON array `[]`) makes `lambda_handler` propagate an uncaught
`AttributeError` instead of returning any status dictionary,
contradicting the handler's documented contract of returning a
`statusCode`/`body` dictionary. -/
theorem C7_handler_raises_on_nonobject_json :
    lambda_handler loadsW envW listRespW allOk (eventFor "[]") = (.error .attributeError, [])
  ∧ loadsW "[]" = some (.list []) :=
  ⟨rfl, rfl⟩

theorem scanPage_some_shape (tn i ty : String) (page : List RecordSetEntry) (info : RecordInfo)
    (h : scanPage tn i ty page = some info) : ∃ rs, recordInfoOf rs = some info := by
  induction page with
  | nil => simp [scanPage] at h
  | cons rs rest ih =>
    simp only [scanPage] at h
    split at h
    · exact absurd h (by simp)
    · split at h
      · split at h
        · next heq => exact ⟨rs, by rw [heq]; exact h⟩
        · exact ih h
      · exact ih h

theorem searchPages_some_shape (tn i ty : String) (pages : List (List RecordSetEntry))
    (info : RecordInfo) (h : searchPages tn i ty pages = some info) :
    ∃ rs, recordInfoOf rs = some info := by
  induction pages with
  | nil => simp [searchPages] at h
  | cons page rest ih =>
    simp only [searchPages] at h
    split at h
    · next heq => exact scanPage_some_shape tn i ty page info (by rw [heq, h])
    · exact ih h

theorem get_record_info_shape (resp : Except Unit (List (List RecordSetEntry)))
    (tn i ty : String) (info : RecordInfo) (h : get_record_info resp tn i ty = some info) :
    ∃ rs, recordInfoOf rs = some info := by
  cases resp with
  | error e => simp [get_record_info] at h
  | ok pages => exact searchPages_some_shape tn i ty pages info (by simpa [get_record_info] using h)

theorem recordInfoOf_shape (rs : RecordSetEntry) (info : RecordInfo)
    (h : recordInfoOf rs = some info) :
    (info.is_alias = true → info.ttl = Option.none ∧ info.resource_records = Option.none)
  ∧ (info.is_alias = false → ∃ vs k, info.resource_records = some vs ∧ info.ttl = some k) := by
  unfold recordInfoOf at h
  split at h
  · cases h
    exact ⟨fun _ => ⟨rfl, rfl⟩, fun hf => Bool.noConfusion hf⟩
  · split at h
    · cases h
      exact ⟨fun ht => Bool.noConfusion ht, fun _ => ⟨_, _, rfl, rfl⟩⟩
    · exact absurd h (by simp)

/-- C5 counterexample: a standard record listed by the provider with
`TTL = 0` (a value Route53 permits) is read back faithfully
(`ttl = some 0`), but the record set re-submitted by
`set_dns_record_weight` carries `TTL = 300`: Python's
`record_info.ttl or 300` treats the falsy `0` like `None`, so the TTL
field is *not* preserved unchanged. -/
theorem C5_frame_counterexample :
    get_record_info (.ok [[rsTTL0]]) "example.com." "primary" "A" = some infoTTL0
  ∧ infoTTL0.ttl = some 0
  ∧ (buildResourceRecordSet "example.com." "A" "primary" 1 infoTTL0).ttl = some 300 :=
  ⟨rfl, rfl, rfl⟩

/-- C5 (amended): for every `RecordInfo` previously read from the
provider by `get_record_info`, the record set submitted by
`set_dns_record_weight` preserves every field other than the weight,
with one exception forced by the counterexample: for the alias variant
the alias DNS name and alias hosted-zone identifier are unchanged (and
no standard fields are added); for the standard variant the ordered
value list is unchanged and the TTL is unchanged *unless it was read as
`0`, in which case `300` is submitted instead*. -/
theorem C5_frame_amended (resp : Except Unit (List (List RecordSetEntry)))
    (name0 id0 type0 : String) (info : RecordInfo)
    (record_set_name record_type identifier : String) (weight : Nat)
    (h : get_record_info resp name0 id0 type0 = some info) :
    (info.is_alias = true →
      (buildResourceRecordSet record_set_name record_type identifier weight info).aliasTarget =
          some { dnsName := info.alias_dns_name, hostedZoneId := info.alias_hosted_zone_id,
                 evaluateTargetHealth := false }
      ∧ (buildResourceRecordSet record_set_name record_type identifier weight info).ttl = Option.none
      ∧ (buildResourceRecordSet record_set_name record_type identifier weight info).resourceRecords
          = Option.none)
  ∧ (info.is_alias = false →
      (buildResourceRecordSet record_set_name record_type identifier weight info).aliasTarget
          = Option.none
      ∧ (buildResourceRecordSet record_set_name record_type identifier weight info).resourceRecords
          = info.resource_records
      ∧ ∃ k, info.ttl = some k
          ∧ (buildResourceRecordSet record_set_name record_type identifier weight info).ttl
              = some (if k = 0 then 300 else k)) := by
  obtain ⟨rs, hro⟩ := get_record_info_shape resp name0 id0 type0 info h
  have hshape := recordInfoOf_shape rs info hro
  constructor
  · intro ha
    exact ⟨by simp [buildResourceRecordSet, ha], by simp [buildResourceRecordSet, ha],
           by simp [buildResourceRecordSet, ha]⟩
  · intro ha
    obtain ⟨vs, k, hrr, httl⟩ := hshape.2 ha
    refine ⟨by simp [buildResourceRecordSet, ha], ?_, k, httl, ?_⟩
    · simp [buildResourceRecordSet, ha, hrr]
    · cases k with
      | zero => simp [buildResourceRecordSet, ha, httl, pyOrDefaultTTL]
      | succ m => simp [buildResourceRecordSet, ha, httl, pyOrDefaultTTL]

/-- C5 witness: the amended theorem applied to the standard secondary
record of `listRespW` (values and the non-zero TTL preserved). -/
theorem C5_frame_witness :
    (buildResourceRecordSet "example.com." "A" "secondary" 0 secInfoW).aliasTarget = Option.none
  ∧ (buildResourceRecordSet "example.com." "A" "secondary" 0 secInfoW).resourceRecords
      = secInfoW.resource_records
  ∧ ∃ k, secInfoW.ttl = some k
      ∧ (buildResourceRecordSet "example.com." "A" "secondary" 0 secInfoW).ttl
          = some (if k = 0 then 300 else k) :=
  (C5_frame_amended listRespW "example.com." "secondary" "A" secInfoW "example.com." "A"
    "secondary" 0 (show get_record_info listRespW "example.com." "secondary" "A" = some secInfoW
      from rfl)).2 rfl

theorem matchesB_name (tn i ty : String) (rs : RecordSetEntry)
    (h : matchesB tn i ty rs = true) : rs.name = tn := by
  simp [matchesB] at h
  exact h.1.1

theorem charsLt_irrefl (l : List Char) : charsLt l l = false := by
  induction l with
  | nil => rfl
  | cons c cs ih => simp [charsLt, ih]

theorem pyStrLt_irrefl (s : String) : pyStrLt s s = false := by
  simp [pyStrLt, charsLt_irrefl]

theorem scanPage_isNone_of (tn i ty : String) (page : List RecordSetEntry)
    (h : ∀ rs ∈ page, matchesB tn i ty rs = true → recordInfoOf rs = Option.none) :
    scanPage tn i ty page = Option.none := by
  revert h
  induction page with
  | nil => intro _; rfl
  | cons rs rest ih =>
    intro h
    have htail : ∀ r ∈ rest, matchesB tn i ty r = true → recordInfoOf r = Option.none :=
      fun r hr => h r (List.mem_cons_of_mem rs hr)
    cases hlt : pyStrLt tn rs.name with
    | true => simp [scanPage, hlt]
    | false =>
      cases hm : matchesB tn i ty rs with
      | false => simpa [scanPage, hlt, hm] using ih htail
      | true =>
        have hro := h rs (List.mem_cons_self rs rest) hm
        simpa [scanPage, hlt, hm, hro] using ih htail

theorem scanPage_finds (tn i ty : String) (page : List RecordSetEntry)
    (rs0 : RecordSetEntry) (info : RecordInfo)
    (hm : matchesB tn i ty rs0 = true)
    (hinfo : recordInfoOf rs0 = some info)
    (hsorted : page.Pairwise (fun a b => pyStrLt b.name a.name = false))
    (huniq : ∀ rs ∈ page, matchesB tn i ty rs = true → rs = rs0)
    (hmem : rs0 ∈ page) :
    scanPage tn i ty page = some info := by
  have hname : rs0.name = tn := matchesB_name tn i ty rs0 hm
  revert hsorted huniq hmem
  induction page with
  | nil => intro _ _ hmem; exact absurd hmem (List.not_mem_nil rs0)
  | cons rs rest ih =>
    intro hsorted huniq hmem
    cases hlt : pyStrLt tn rs.name with
    | true =>
      exfalso
      rcases List.mem_cons.mp hmem with heq | hmem'
      · rw [← heq, hname, pyStrLt_irrefl] at hlt
        exact Bool.noConfusion hlt
      · have hpair := (List.pairwise_cons.mp hsorted).1 rs0 hmem'
        rw [hname] at hpair
        rw [hpair] at hlt
        exact Bool.noConfusion hlt
    | false =>
      cases hmm : matchesB tn i ty rs with
      | true =>
        have heq : rs = rs0 := huniq rs (List.mem_cons_self rs rest) hmm
        subst heq
        simp [scanPage, hlt, hmm, hinfo]
      | false =>
        have hmem' : rs0 ∈ rest := by
          rcases List.mem_cons.mp hmem with heq | h'
          · exfalso
            have hm' := hm
            rw [heq] at hm'
            rw [hm'] at hmm
            exact Bool.noConfusion hmm
          · exact h'
        have hrec := ih (List.Pairwise.of_cons hsorted)
          (fun r hr hmr => huniq r (List.mem_cons_of_mem rs hr) hmr) hmem'
        simpa [scanPage, hlt, hmm] using hrec

theorem searchPages_isNone (tn i ty : String) (pages : List (List RecordSetEntry))
    (h : ∀ p ∈ pages, scanPage tn i ty p = Option.none) :
    searchPages tn i ty pages = Option.none := by
  revert h
  induction pages with
  | nil => intro _; rfl
  | cons p rest ih =>
    intro h
    have hp := h p (List.mem_cons_self p rest)
    simpa [searchPages, hp] using ih (fun q hq => h q (List.mem_cons_of_mem p hq))

theorem searchPages_finds (tn i ty : String) (pages : List (List RecordSetEntry))
    (rs0 : RecordSetEntry) (info : RecordInfo)
    (hm : matchesB tn i ty rs0 = true)
    (hinfo : recordInfoOf rs0 = some info)
    (hsorted : ∀ page ∈ pages, page.Pairwise (fun a b => pyStrLt b.name a.name = false))
    (huniq : ∀ page ∈ pages, ∀ rs ∈ page, matchesB tn i ty rs = true → rs = rs0)
    (hmem : ∃ page ∈ pages, rs0 ∈ page) :
    searchPages tn i ty pages = some info := by
  revert hsorted huniq hmem
  induction pages with
  | nil =>
    intro _ _ hmem
    rcases hmem with ⟨p, hp, _⟩
    exact absurd hp (List.not_mem_nil p)
  | cons page rest ih =>
    intro hsorted huniq hmem
    by_cases hp : rs0 ∈ page
    · have hs := scanPage_finds tn i ty page rs0 info hm hinfo
        (hsorted page (List.mem_cons_self page rest))
        (huniq page (List.mem_cons_self page rest)) hp
      simp [searchPages, hs]
    · have hnone : scanPage tn i ty page = Option.none :=
        scanPage_isNone_of tn i ty page
          (fun r hr hmr =>
            absurd (huniq page (List.mem_cons_self page rest) r hr hmr ▸ hr) hp)
      have hmem' : ∃ q ∈ rest, rs0 ∈ q := by
        rcases hmem with ⟨q, hq, hrq⟩
        rcases List.mem_cons.mp hq with heq | h'
        · exact absurd (heq ▸ hrq) hp
        · exact ⟨q, h', hrq⟩
      have hrec := ih (fun q hq => hsorted q (List.mem_cons_of_mem page hq))
        (fun q hq r hr hmr => huniq q (List.mem_cons_of_mem page hq) r hr hmr) hmem'
      simpa [searchPages, hnone] using hrec

/-- C8: characterization of `get_record_info` over the provider's
listing.  The hypotheses of the last conjunct encode what Route53's
`list_resource_record_sets` guarantees about the sequences it returns:
each page is sorted by record name, and at most one record set carries
a given (name, type, set identifier) combination.  Under them the
paginated scan returns exactly the conversion `recordInfoOf` of the
matching record: an alias-target description (`is_alias`, target DNS
name, target zone identifier, no TTL, no values) when it carries an
`AliasTarget` (conjunct 2), a standard description (values plus TTL
defaulting to 300 when absent) when it carries `ResourceRecords`
(conjunct 3), and `None` when the provider query raises (conjunct 1) or
no record matches (conjunct 4). -/
theorem C8_get_record_info_characterization (record_set_name identifier record_type : String) :
    (get_record_info (Except.error ()) record_set_name identifier record_type = Option.none)
  ∧ (∀ rs tgt, rs.aliasTarget = some tgt →
       recordInfoOf rs = some { is_alias := true, alias_dns_name := some tgt.dnsName,
                                alias_hosted_zone_id := some tgt.hostedZoneId,
                                resource_records := Option.none, ttl := Option.none })
  ∧ (∀ rs vals, rs.aliasTarget = Option.none → rs.resourceRecords = some vals →
       recordInfoOf rs = some { is_alias := false, alias_dns_name := Option.none,
                                alias_hosted_zone_id := Option.none,
                                resource_records := some vals, ttl := some (rs.ttl.getD 300) })
  ∧ (∀ pages,
       (∀ page ∈ pages, ∀ rs ∈ page,
          matchesB record_set_name identifier record_type rs = false) →
       get_record_info (Except.ok pages) record_set_name identifier record_type = Option.none)
  ∧ (∀ pages rs0,
       (∀ page ∈ pages, page.Pairwise (fun a b => pyStrLt b.name a.name = false)) →
       matchesB record_set_name identifier record_type rs0 = true →
       (∀ page ∈ pages, ∀ rs ∈ page,
          matchesB record_set_name identifier record_type rs = true → rs = rs0) →
       (∃ page ∈ pages, rs0 ∈ page) →
       get_record_info (Except.ok pages) record_set_name identifier record_type
         = recordInfoOf rs0) := by
  refine ⟨rfl, ?_, ?_, ?_, ?_⟩
  · intro rs tgt h
    simp [recordInfoOf, h]
  · intro rs vals ha hr
    simp [recordInfoOf, ha, hr]
  · intro pages h
    simp only [get_record_info]
    exact searchPages_isNone record_set_name identifier record_type pages
      (fun p hp => scanPage_isNone_of record_set_name identifier record_type p
        (fun r hr hmr => absurd hmr (by rw [h p hp r hr]; exact Bool.noConfusion)))
  · intro pages rs0 hsorted hm huniq hmem
    cases hinfo : recordInfoOf rs0 with
    | none =>
      simp only [get_record_info]
      exact searchPages_isNone record_set_name identifier record_type pages
        (fun p hp => scanPage_isNone_of record_set_name identifier record_type p
          (fun r hr hmr => by rw [huniq p hp r hr hmr]; exact hinfo))
    | some info =>
      simp only [get_record_info]
      exact searchPages_finds record_set_name identifier record_type pages rs0 info
        hm hinfo hsorted huniq hmem

/-- C8 witness: the characterization applied to the concrete sorted
listing `[[rsPri, rsSec]]` with the matching alias record `rsPri`. -/
theorem C8_get_record_info_witness :
    get_record_info (Except.ok [[rsPri, rsSec]]) "example.com." "primary" "A"
      = recordInfoOf rsPri :=
  (C8_get_record_info_characterization "example.com." "primary" "A").2.2.2.2
    [[rsPri, rsSec]] rsPri (by decide) (by decide) (by decide) (by decide)

theorem validate_sns_message_cons (loads : String → Option PyVal)
    (e : List (String × PyVal)) (r : PyVal) (t : List PyVal)
    (h : e.lookup "Records" = some (PyVal.list (r :: t))) :
    validate_sns_message loads e = stateFromRecord loads r := by
  unfold validate_sns_message
  rw [h]
  rfl

/-- C10: two events that agree on the first element of their `Records`
list (under the same environment and provider behaviour) produce the
identical handler result and the identical mutation trace: records
after the first, and any other part of the event, have no influence. -/
theorem C10_only_first_record (loads : String → Option PyVal) (env : List (String × String))
    (listResp : Except Unit (List (List RecordSetEntry)))
    (changeOk : ResourceRecordSetPayload → Bool)
    (e1 e2 : List (String × PyVal)) (r : PyVal) (t1 t2 : List PyVal)
    (h1 : e1.lookup "Records" = some (PyVal.list (r :: t1)))
    (h2 : e2.lookup "Records" = some (PyVal.list (r :: t2))) :
    lambda_handler loads env listResp changeOk e1
      = lambda_handler loads env listResp changeOk e2 := by
  have hv : validate_sns_message loads e1 = validate_sns_message loads e2 := by
    rw [validate_sns_message_cons loads e1 r t1 h1, validate_sns_message_cons loads e2 r t2 h2]
  unfold lambda_handler
  rw [hv]

/-- C10 witness: an event with one record and an event that appends a
second (junk) record and an extra top-level key behave identically. -/
theorem C10_only_first_record_witness :
    lambda_handler loadsW envW listRespW allOk (eventFor msgALARM)
      = lambda_handler loadsW envW listRespW allOk eventExtra :=
  C10_only_first_record loadsW envW listRespW allOk (eventFor msgALARM) eventExtra
    (PyVal.dict [("Sns", PyVal.dict [("Message", PyVal.str msgALARM)])]) [] [PyVal.str "junk"]
    rfl rfl

/-- C1 counterexample: a valid ALARM invocation (environment complete,
notification well-formed, both records found) in which the provider
rejects the primary mutation.  The handler submits only the weight-0
primary change; no weight-1 change for the secondary identifier is ever
submitted, because Python's `and` short-circuits — so the claim's
unconditional "submits ... a weight of 1 for the secondary" fails. -/
theorem C1_counterexample :
    (lambda_handler loadsW envW listRespW denyPrimary (eventFor msgALARM)).2
      = [buildResourceRecordSet "example.com." "A" "primary" 0 priInfoW]
  ∧ ((lambda_handler loadsW envW listRespW denyPrimary (eventFor msgALARM)).2.all
       (fun p => !(p.setIdentifier == "secondary"))) = true :=
  ⟨rfl, rfl⟩

/-- C1 (amended): for every valid invocation (environment validated,
notification parsed to a state, both records found): on `ALARM` the
handler submits a weight-0 change for the primary identifier and — when
that first mutation succeeds — a weight-1 change for the secondary
identifier; on `OK` it submits weight 1 for the primary and, when that
succeeds, weight 0 for the secondary; on `INSUFFICIENT_DATA` it submits
no record mutation at all. -/
theorem C1_weights_amended (loads : String → Option PyVal) (env : List (String × String))
    (listResp : Except Unit (List (List RecordSetEntry)))
    (changeOk : ResourceRecordSetPayload → Bool) (event : List (String × PyVal))
    (cfg : EnvConfig) (st : String) (pri sec : RecordInfo)
    (henv : validate_environment_variables env = .ok cfg)
    (hmsg : validate_sns_message loads event = .ok (some st))
    (hpri : get_record_info listResp cfg.record_set_name cfg.primary_identifier cfg.record_type
        = some pri)
    (hsec : get_record_info listResp cfg.record_set_name cfg.secondary_identifier cfg.record_type
        = some sec) :
    (st = "ALARM" →
       (lambda_handler loads env listResp changeOk event).2
         = buildResourceRecordSet cfg.record_set_name cfg.record_type cfg.primary_identifier 0 pri
             :: (if changeOk (buildResourceRecordSet cfg.record_set_name cfg.record_type
                    cfg.primary_identifier 0 pri)
                 then [buildResourceRecordSet cfg.record_set_name cfg.record_type
                         cfg.secondary_identifier 1 sec]
                 else []))
  ∧ (st = "OK" →
       (lambda_handler loads env listResp changeOk event).2
         = buildResourceRecordSet cfg.record_set_name cfg.record_type cfg.primary_identifier 1 pri
             :: (if changeOk (buildResourceRecordSet cfg.record_set_name cfg.record_type
                    cfg.primary_identifier 1 pri)
                 then [buildResourceRecordSet cfg.record_set_name cfg.record_type
                         cfg.secondary_identifier 0 sec]
                 else []))
  ∧ (st = "INSUFFICIENT_DATA" →
       (lambda_handler loads env listResp changeOk event).2 = []) := by
  refine ⟨?_, ?_, ?_⟩ <;> intro hst <;> subst hst
  · cases hc : changeOk (buildResourceRecordSet cfg.record_set_name cfg.record_type
        cfg.primary_identifier 0 pri) <;>
      simp [lambda_handler, henv, hmsg, hpri, hsec, updateWeights, set_dns_record_weight,
        finishUpdate, hc, apply_ite]
  · cases hc : changeOk (buildResourceRecordSet cfg.record_set_name cfg.record_type
        cfg.primary_identifier 1 pri) <;>
      simp [lambda_handler, henv, hmsg, hpri, hsec, updateWeights, set_dns_record_weight,
        finishUpdate, hc, apply_ite]
  · simp [lambda_handler, henv, hmsg, hpri, hsec]

/-- C1 witness: the amended theorem at a concrete ALARM invocation with
an all-accepting provider. -/
theorem C1_weights_witness :
    (lambda_handler loadsW envW listRespW allOk (eventFor msgALARM)).2
      = buildResourceRecordSet "example.com." "A" "primary" 0 priInfoW
          :: (if allOk (buildResourceRecordSet "example.com." "A" "primary" 0 priInfoW)
              then [buildResourceRecordSet "example.com." "A" "secondary" 1 secInfoW]
              else []) :=
  (C1_weights_amended loadsW envW listRespW allOk (eventFor msgALARM) cfgW "ALARM"
    priInfoW secInfoW rfl rfl rfl rfl).1 rfl

/-- C2 counterexample: a valid ALARM invocation in which the provider
accepts the primary change but rejects the secondary one.  Exactly one
of the two submitted changes takes effect (the primary weight-0 change)
while the handler reports failure (status 500): a partial-success
outcome the claim rules out. -/
theorem C2_counterexample :
    (lambda_handler loadsW envW listRespW denySecondary (eventFor msgALARM)).1
      = .ok { statusCode := 500, body := jsonObj1 "error" "Failed to update DNS weights" }
  ∧ ((lambda_handler loadsW envW listRespW denySecondary (eventFor msgALARM)).2.filter
       denySecondary)
      = [buildResourceRecordSet "example.com." "A" "primary" 0 priInfoW] :=
  ⟨rfl, rfl⟩

/-- C2 (amended): for every valid ALARM/OK invocation, the handler
reports success (status 200) iff *both* weight mutations took effect;
however the operation is not atomic: the set of changes that take
effect is either empty, or the primary change alone (when the secondary
mutation fails after a successful primary one, a partial-success state
the handler reports as failure), or both — the secondary change alone
can never take effect, because a failed primary mutation short-circuits
the secondary one. -/
theorem C2_atomicity_amended (loads : String → Option PyVal) (env : List (String × String))
    (listResp : Except Unit (List (List RecordSetEntry)))
    (changeOk : ResourceRecordSetPayload → Bool) (event : List (String × PyVal))
    (cfg : EnvConfig) (st : String) (pri sec : RecordInfo)
    (henv : validate_environment_variables env = .ok cfg)
    (hmsg : validate_sns_message loads event = .ok (some st))
    (hpri : get_record_info listResp cfg.record_set_name cfg.primary_identifier cfg.record_type
        = some pri)
    (hsec : get_record_info listResp cfg.record_set_name cfg.secondary_identifier cfg.record_type
        = some sec)
    (hst : st = "ALARM" ∨ st = "OK") :
    ((lambda_handler loads env listResp changeOk event).1
        = .ok { statusCode := 200,
                body := jsonObj1 "message" ("DNS weights updated successfully for state: " ++ st) }
      ↔ (lambda_handler loads env listResp changeOk event).2.filter changeOk
          = [buildResourceRecordSet cfg.record_set_name cfg.record_type cfg.primary_identifier
               (if st = "ALARM" then 0 else 1) pri,
             buildResourceRecordSet cfg.record_set_name cfg.record_type cfg.secondary_identifier
               (if st = "ALARM" then 1 else 0) sec])
  ∧ ((lambda_handler loads env listResp changeOk event).2.filter changeOk = []
     ∨ (lambda_handler loads env listResp changeOk event).2.filter changeOk
         = [buildResourceRecordSet cfg.record_set_name cfg.record_type cfg.primary_identifier
              (if st = "ALARM" then 0 else 1) pri]
     ∨ (lambda_handler loads env listResp changeOk event).2.filter changeOk
         = [buildResourceRecordSet cfg.record_set_name cfg.record_type cfg.primary_identifier
              (if st = "ALARM" then 0 else 1) pri,
            buildResourceRecordSet cfg.record_set_name cfg.record_type cfg.secondary_identifier
              (if st = "ALARM" then 1 else 0) sec]) := by
  rcases hst with rfl | rfl
  · cases hc1 : changeOk (buildResourceRecordSet cfg.record_set_name cfg.record_type
        cfg.primary_identifier 0 pri)
    · simp [lambda_handler, henv, hmsg, hpri, hsec, updateWeights, set_dns_record_weight,
        finishUpdate, hc1, List.filter]
    · cases hc2 : changeOk (buildResourceRecordSet cfg.record_set_name cfg.record_type
          cfg.secondary_identifier 1 sec) <;>
        simp [lambda_handler, henv, hmsg, hpri, hsec, updateWeights, set_dns_record_weight,
          finishUpdate, hc1, hc2, List.filter]
  · cases hc1 : changeOk (buildResourceRecordSet cfg.record_set_name cfg.record_type
        cfg.primary_identifier 1 pri)
    · simp [lambda_handler, henv, hmsg, hpri, hsec, updateWeights, set_dns_record_weight,
        finishUpdate, hc1, List.filter]
    · cases hc2 : changeOk (buildResourceRecordSet cfg.record_set_name cfg.record_type
          cfg.secondary_identifier 0 sec) <;>
        simp [lambda_handler, henv, hmsg, hpri, hsec, updateWeights, set_dns_record_weight,
          finishUpdate, hc1, hc2, List.filter]

/-- C2 witness: the amended theorem at a concrete ALARM invocation with
an all-accepting provider. -/
theorem C2_atomicity_witness :
    ((lambda_handler loadsW envW listRespW allOk (eventFor msgALARM)).1
        = .ok { statusCode := 200,
                body := jsonObj1 "message" ("DNS weights updated successfully for state: "
                  ++ "ALARM") }
      ↔ (lambda_handler loadsW envW listRespW allOk (eventFor msgALARM)).2.filter allOk
          = [buildResourceRecordSet "example.com." "A" "primary" 0 priInfoW,
             buildResourceRecordSet "example.com." "A" "secondary" 1 secInfoW])
  ∧ ((lambda_handler loadsW envW listRespW allOk (eventFor msgALARM)).2.filter allOk = []
     ∨ (lambda_handler loadsW envW listRespW allOk (eventFor msgALARM)).2.filter allOk
         = [buildResourceRecordSet "example.com." "A" "primary" 0 priInfoW]
     ∨ (lambda_handler loadsW envW listRespW allOk (eventFor msgALARM)).2.filter allOk
         = [buildResourceRecordSet "example.com." "A" "primary" 0 priInfoW,
            buildResourceRecordSet "example.com." "A" "secondary" 1 secInfoW]) :=
  C2_atomicity_amended loadsW envW listRespW allOk (eventFor msgALARM) cfgW "ALARM"
    priInfoW secInfoW rfl rfl rfl rfl (Or.inl rfl)

/-- C9: for every valid ALARM/OK invocation in which the provider
rejects the weight change for the primary identifier, the handler never
submits the weight change for the secondary identifier (the conjunction
short-circuits) and returns the 500 mutation-failure result: its trace
is exactly the single primary submission. -/
theorem C9_primary_failure_short_circuits (loads : String → Option PyVal)
    (env : List (String × String)) (listResp : Except Unit (List (List RecordSetEntry)))
    (changeOk : ResourceRecordSetPayload → Bool) (event : List (String × PyVal))
    (cfg : EnvConfig) (st : String) (pri sec : RecordInfo)
    (henv : validate_environment_variables env = .ok cfg)
    (hmsg : validate_sns_message loads event = .ok (some st))
    (hpri : get_record_info listResp cfg.record_set_name cfg.primary_identifier cfg.record_type
        = some pri)
    (hsec : get_record_info listResp cfg.record_set_name cfg.secondary_identifier cfg.record_type
        = some sec)
    (hst : st = "ALARM" ∨ st = "OK")
    (hfail : changeOk (buildResourceRecordSet cfg.record_set_name cfg.record_type
        cfg.primary_identifier (if st = "ALARM" then 0 else 1) pri) = false) :
    lambda_handler loads env listResp changeOk event
      = (.ok { statusCode := 500, body := jsonObj1 "error" "Failed to update DNS weights" },
         [buildResourceRecordSet cfg.record_set_name cfg.record_type cfg.primary_identifier
            (if st = "ALARM" then 0 else 1) pri]) := by
  rcases hst with rfl | rfl
  · rw [if_pos rfl] at hfail
    simp [lambda_handler, henv, hmsg, hpri, hsec, updateWeights, set_dns_record_weight,
      finishUpdate, hfail]
  · rw [if_neg (by decide)] at hfail
    simp [lambda_handler, henv, hmsg, hpri, hsec, updateWeights, set_dns_record_weight,
      finishUpdate, hfail]

/-- C9 witness: a concrete ALARM invocation whose provider rejects the
primary change. -/
theorem C9_short_circuit_witness :
    lambda_handler loadsW envW listRespW denyPrimary (eventFor msgALARM)
      = (.ok { statusCode := 500, body := jsonObj1 "error" "Failed to update DNS weights" },
         [buildResourceRecordSet "example.com." "A" "primary" 0 priInfoW]) :=
  C9_primary_failure_short_circuits loadsW envW listRespW denyPrimary (eventFor msgALARM)
    cfgW "ALARM" priInfoW secInfoW rfl rfl rfl rfl (Or.inl rfl) rfl
